import Mathlib

/-!
Verification development for the ImageCraft server core: the token-authenticated,
credit-metered resource access control. The middleware src/middlewares/auth.js is
embedded shallowly; the credit-metered operation of the spec (section 4.2) is
modelled from the spec because the controller files are not among the sources,
and the credit update documented in src/README.md is embedded as a small-step
interleaving model to examine its behaviour under concurrent requests.
-/

namespace ImageCraft

/-- Decoded JWT payload as consumed by src/middlewares/auth.js: only the id field
is read. A value of none models an absent tokenDecode.id. -/
structure Payload where
  id : Option String
  deriving DecidableEq

/-- Error thrown by jwt.verify; the middleware observes only error.message. -/
structure JwtError where
  message : String
  deriving DecidableEq

/-- Request as seen by the middleware: the token header, possibly absent. -/
structure Request where
  token : Option String
  deriving DecidableEq

/-- One HTTP response attempt, res.status(s).json with a success flag and message. -/
structure Resp where
  status : Nat
  success : Bool
  message : String
  deriving DecidableEq

/-- JS truthiness of the token header: undefined and the empty string are falsy. -/
def tokenTruthy : Option String → Bool
  | none => false
  | some t => if t = "" then false else true

/-- JS truthiness of tokenDecode.id: an absent id and the empty string are falsy. -/
def idTruthy : Option String → Bool
  | none => false
  | some s => if s = "" then false else true

/-- Behaviour of jwt.verify on the supplied token: the jsonwebtoken library throws
with message "jwt must be provided" when the token is undefined or empty; otherwise
the abstract verifier (signature, shape and expiry checking against the configured
secret) decides between a decoded payload and a thrown error. -/
def jsVerify (verify : String → Except JwtError Payload) :
    Option String → Except JwtError Payload
  | none => Except.error ⟨"jwt must be provided"⟩
  | some t => if t = "" then Except.error ⟨"jwt must be provided"⟩ else verify t

/-- Observable effect of one run of the middleware: every response attempted in
order, the final req.userId, whether next() was called, and whether control reached
the jwt.verify call. -/
structure MwResult where
  responses : List Resp
  userId : Option String
  nextCalled : Bool
  verifyAttempted : Bool
  deriving DecidableEq

/-- The 400 response body, shared verbatim by the missing-token branch and the
missing-id branch of src/middlewares/auth.js. -/
def notAuthorizedResp : Resp :=
  ⟨400, false, "Not Authorized Login Again"⟩

/-- Responses already sent when the try block starts: the missing-token branch
sends its 400 but has no return statement, so it does not stop the middleware. -/
def preResponses (tok : Option String) : List Resp :=
  if tokenTruthy tok then [] else [notAuthorizedResp]

/-- Shallow embedding of userAuth from src/middlewares/auth.js. Control always
falls through into the try block (the missing-token branch lacks a return), so
jwt.verify runs on every request; a throw is caught and answered with a 500
response carrying error.message; a decoded payload with a falsy id is answered
with the same 400 body as the missing-token branch; otherwise req.userId is set
to the decoded id and next() is called. -/
def userAuth (verify : String → Except JwtError Payload) (req : Request) : MwResult :=
  match jsVerify verify req.token with
  | Except.error e => ⟨preResponses req.token ++ [⟨500, false, e.message⟩], none, false, true⟩
  | Except.ok p =>
    if idTruthy p.id then ⟨preResponses req.token, p.id, true, true⟩
    else ⟨preResponses req.token ++ [notAuthorizedResp], none, false, true⟩

/-- C1: refuted on the code. For a request with no token the middleware does send
the 400 rejection of the MissingToken class, but the rejection is not terminal:
for lack of a return statement, jwt.verify is still attempted (its throw on a
missing token surfaces as a second, 500, response attempt on the same request),
and the verifyAttempted flag records that the verification step ran. -/
theorem userAuth_missingToken_not_terminal :
    userAuth (fun _ => Except.error ⟨"invalid signature"⟩) ⟨none⟩ =
      ⟨[notAuthorizedResp, ⟨500, false, "jwt must be provided"⟩], none, false, true⟩ := by
  decide

/-- C5: refuted on the code. For a request with no token the middleware attempts a
second response after the first one has been sent; the HTTP layer raises this
second send as a headers-already-sent fault out of userAuth, so not every path
ends in a single explicit outcome value. -/
theorem userAuth_attempts_second_response :
    1 < (userAuth (fun _ => Except.error ⟨"boom"⟩) ⟨none⟩).responses.length := by
  decide

/-- C2: for every non-empty token on which jwt.verify throws (invalid signature,
malformed token, expiry), the middleware answers from the catch block with the 500
rejection carrying the error message, sets no user id and never calls next(); this
is the Rejected(InvalidToken) outcome of the spec. -/
theorem userAuth_invalidToken (verify : String → Except JwtError Payload)
    (t : String) (e : JwtError) (ht : t ≠ "") (hv : verify t = Except.error e) :
    userAuth verify ⟨some t⟩ = ⟨[⟨500, false, e.message⟩], none, false, true⟩ := by
  simp [userAuth, jsVerify, preResponses, tokenTruthy, ht, hv]

/-- C2 witness at a concrete verifier and token. -/
theorem userAuth_invalidToken_witness :
    userAuth (fun _ => Except.error ⟨"jwt expired"⟩) ⟨some "tok"⟩ =
      ⟨[⟨500, false, "jwt expired"⟩], none, false, true⟩ :=
  userAuth_invalidToken (fun _ => Except.error ⟨"jwt expired"⟩) "tok" ⟨"jwt expired"⟩
    (by decide) rfl

/-- C3: for every token that the verifier decodes to a payload whose subject id is
a nonempty string s, the middleware sets req.userId to exactly s, calls next() and
sends no response: the Authenticated(s) outcome, with the subject identifier
round-tripping unchanged from what the issuer embedded. -/
theorem userAuth_authenticated (verify : String → Except JwtError Payload)
    (t s : String) (p : Payload) (ht : t ≠ "") (hv : verify t = Except.ok p)
    (hid : p.id = some s) (hs : s ≠ "") :
    userAuth verify ⟨some t⟩ = ⟨[], some s, true, true⟩ := by
  simp [userAuth, jsVerify, preResponses, tokenTruthy, idTruthy, ht, hv, hid, hs]

/-- C3 witness at a concrete verifier, token and subject. -/
theorem userAuth_authenticated_witness :
    userAuth (fun _ => Except.ok ⟨some "user42"⟩) ⟨some "tok"⟩ =
      ⟨[], some "user42", true, true⟩ :=
  userAuth_authenticated (fun _ => Except.ok ⟨some "user42"⟩) "tok" "user42"
    ⟨some "user42"⟩ (by decide) rfl rfl (by decide)

/-- C4 counterexample: when verification succeeds but the payload lacks an id, the
rejection sent is the 400 notAuthorizedResp, the exact response of the
MissingToken branch, while a signature failure is answered with a 500 carrying the
error message; so the missing-subject rejection lands externally in the
MissingToken class, not in the signature-failure class, contrary to the claim. -/
theorem userAuth_missing_subject_counterexample :
    (userAuth (fun _ => Except.ok ⟨none⟩) ⟨some "tok"⟩).responses = [notAuthorizedResp] ∧
    (userAuth (fun _ => Except.error ⟨"invalid signature"⟩) ⟨some "tok"⟩).responses =
      [⟨500, false, "invalid signature"⟩] ∧
    (userAuth (fun _ => Except.error ⟨"invalid signature"⟩) ⟨none⟩).responses.head? =
      some notAuthorizedResp ∧
    ([notAuthorizedResp] : List Resp) ≠ [⟨500, false, "invalid signature"⟩] := by
  decide

/-- C4 amended: for every token that verifies to a payload with a JS-falsy subject
id, the middleware rejects with the same 400 response body as the missing-token
branch (a shape no signature-failure response has, those being 500) and never
calls next(). -/
theorem userAuth_missing_subject (verify : String → Except JwtError Payload)
    (t : String) (p : Payload) (ht : t ≠ "") (hv : verify t = Except.ok p)
    (hid : idTruthy p.id = false) :
    userAuth verify ⟨some t⟩ = ⟨[notAuthorizedResp], none, false, true⟩ ∧
    ∀ m : String, notAuthorizedResp ≠ ⟨500, false, m⟩ := by
  constructor
  · simp [userAuth, jsVerify, preResponses, tokenTruthy, ht, hv, hid]
  · intro m
    simp [notAuthorizedResp]

/-- C4 witness at a concrete verifier whose payload carries an empty (falsy) id. -/
theorem userAuth_missing_subject_witness :
    userAuth (fun _ => Except.ok ⟨some ""⟩) ⟨some "abc"⟩ =
      ⟨[notAuthorizedResp], none, false, true⟩ :=
  (userAuth_missing_subject (fun _ => Except.ok ⟨some ""⟩) "abc" ⟨some ""⟩
    (by decide) rfl (by decide)).1

/-- C10: the middleware calls next() exactly when jwt.verify on the supplied token
succeeds with a truthy id, and in exactly that case req.userId is the decoded id;
in every other case next() is never called. -/
theorem userAuth_next_iff (verify : String → Except JwtError Payload) (req : Request) :
    ((userAuth verify req).nextCalled = true ↔
      ∃ p, jsVerify verify req.token = Except.ok p ∧ idTruthy p.id = true) ∧
    (∀ p, jsVerify verify req.token = Except.ok p → idTruthy p.id = true →
      (userAuth verify req).userId = p.id) := by
  unfold userAuth
  cases h : jsVerify verify req.token with
  | error e => simp [h]
  | ok p =>
    cases hid : idTruthy p.id with
    | false => simp [h, hid]
    | true => simp [h, hid]

/-- C10 witness: a concrete accepted request, with userId derived by the theorem. -/
theorem userAuth_next_iff_witness :
    (userAuth (fun _ => Except.ok ⟨some "user7"⟩) ⟨some "tk"⟩).userId = some "user7" :=
  (userAuth_next_iff (fun _ => Except.ok ⟨some "user7"⟩) ⟨some "tk"⟩).2
    ⟨some "user7"⟩ rfl rfl

/-- Outcome of the externally supplied costly operation. -/
inductive OpResult
  | success (r : String)
  | failure (e : String)
  deriving DecidableEq

/-- Denial reasons of the credit-metered operation. -/
inductive DenyReason
  | InsufficientCredit
  deriving DecidableEq

/-- Failure reasons of the credit-metered operation. -/
inductive FailReason
  | UnknownIdentity
  | OperationError
  | InvalidCost
  deriving DecidableEq

/-- Result of the credit-metered operation. -/
inductive ExecResult
  | Success (r : String) (newBalance : Int)
  | Denied (reason : DenyReason)
  | Failed (reason : FailReason)
  deriving DecidableEq

/-- Outcome of one execute call: the returned result, the persisted balance
afterwards (none when no account exists), and whether the costly operation was
actually invoked. -/
structure ExecOutcome where
  result : ExecResult
  finalBalance : Option Int
  opInvoked : Bool
  deriving DecidableEq

/-- Modelled from the spec: the generateImage controller implementing
CreditMeteredOperation is not among the source files, so execute follows the
algorithm of spec section 4.2 — reject a non-positive cost defensively with
Failed(InvalidCost), Failed(UnknownIdentity) when no account exists, Denied
(InsufficientCredit) when the balance is below the cost (the operation is not
invoked), Failed(OperationError) with no charge when the invoked operation fails,
and on operation success a decrement of the balance by exactly the cost. -/
def execute (acct : Option Int) (cost : Int) (op : OpResult) : ExecOutcome :=
  if cost ≤ 0 then ⟨ExecResult.Failed FailReason.InvalidCost, acct, false⟩
  else
    match acct with
    | none => ⟨ExecResult.Failed FailReason.UnknownIdentity, none, false⟩
    | some b =>
      if b < cost then ⟨ExecResult.Denied DenyReason.InsufficientCredit, some b, false⟩
      else
        match op with
        | OpResult.failure _ => ⟨ExecResult.Failed FailReason.OperationError, some b, true⟩
        | OpResult.success r => ⟨ExecResult.Success r (b - cost), some (b - cost), true⟩

/-- C6: for every account with balance b and positive cost c with b < c, execute
returns Denied(InsufficientCredit), the balance is unchanged, and the costly
operation is never invoked (this holds whatever the operation would return). -/
theorem execute_insufficient (b c : Int) (op : OpResult) (hc : 0 < c) (hb : b < c) :
    execute (some b) c op =
      ⟨ExecResult.Denied DenyReason.InsufficientCredit, some b, false⟩ := by
  have h1 : ¬ c ≤ 0 := not_le.mpr hc
  simp [execute, h1, hb]

/-- C6 witness at balance 2 and cost 5. -/
theorem execute_insufficient_witness :
    execute (some 2) 5 (OpResult.success "img") =
      ⟨ExecResult.Denied DenyReason.InsufficientCredit, some 2, false⟩ :=
  execute_insufficient 2 5 (OpResult.success "img") (by decide) (by decide)

/-- C7: for every balance b and positive cost c with c ≤ b, when the costly
operation succeeds, execute returns Success and persists exactly b - c; at the
boundary b = c the persisted balance is 0 and every further call with cost at
least 1 is Denied(InsufficientCredit). -/
theorem execute_success_decrements (b c : Int) (r : String) (hc : 0 < c) (hcb : c ≤ b) :
    execute (some b) c (OpResult.success r) =
      ⟨ExecResult.Success r (b - c), some (b - c), true⟩ ∧
    (b = c → (execute (some b) c (OpResult.success r)).finalBalance = some 0 ∧
      ∀ c2 : Int, 1 ≤ c2 → ∀ op2 : OpResult,
        (execute (some 0) c2 op2).result =
          ExecResult.Denied DenyReason.InsufficientCredit) := by
  have h1 : ¬ c ≤ 0 := not_le.mpr hc
  have h2 : ¬ b < c := not_lt.mpr hcb
  refine ⟨by simp [execute, h1, h2], fun hbc => ⟨?_, fun c2 hc2 op2 => ?_⟩⟩
  · simp [execute, h1, h2, hbc]
  · have g1 : ¬ c2 ≤ 0 := by omega
    have g2 : (0 : Int) < c2 := by omega
    simp [execute, g1, g2]

/-- C7 witness: the boundary case balance 3, cost 3, followed by a denied call. -/
theorem execute_success_decrements_witness :
    (execute (some 0) 1 (OpResult.success "again")).result =
      ExecResult.Denied DenyReason.InsufficientCredit :=
  ((execute_success_decrements 3 3 "img" (by decide) (by decide)).2 rfl).2 1
    (by decide) (OpResult.success "again")

/-- C8: whenever the costly operation fails, the balance after execute equals the
balance before, for every account balance and every cost; and whenever the
operation was actually reached (positive cost, sufficient balance), the returned
result is Failed(OperationError). -/
theorem execute_failure_no_charge (b c : Int) (e : String) :
    (execute (some b) c (OpResult.failure e)).finalBalance = some b ∧
    (0 < c → c ≤ b →
      (execute (some b) c (OpResult.failure e)).result =
        ExecResult.Failed FailReason.OperationError) := by
  constructor
  · by_cases h1 : c ≤ 0
    · simp [execute, h1]
    · by_cases h2 : b < c
      · simp [execute, h1, h2]
      · simp [execute, h1, h2]
  · intro hc hcb
    have h1 : ¬ c ≤ 0 := not_le.mpr hc
    have h2 : ¬ b < c := not_lt.mpr hcb
    simp [execute, h1, h2]

/-- C8 witness at balance 4, cost 2 and a failing operation. -/
theorem execute_failure_no_charge_witness :
    (execute (some 4) 2 (OpResult.failure "provider down")).finalBalance = some 4 ∧
    (execute (some 4) 2 (OpResult.failure "provider down")).result =
      ExecResult.Failed FailReason.OperationError :=
  ⟨(execute_failure_no_charge 4 2 "provider down").1,
   (execute_failure_no_charge 4 2 "provider down").2 (by decide) (by decide)⟩

/-- Progress of one request through the credit update documented in
src/README.md: findById reads creditBalance into a local snapshot, the
sufficiency check runs against that snapshot, and findByIdAndUpdate then writes
creditBalance := snapshot - cost unconditionally. -/
inductive Phase
  | start
  | snap (s : Int)
  | finished (charged : Bool)
  deriving DecidableEq

/-- Shared balance plus the phases of two concurrent requests on one identity. -/
structure RaceState where
  balance : Int
  reqA : Phase
  reqB : Phase
  deriving DecidableEq

/-- One step of a single request of the read-then-write update: the read takes a
snapshot of the shared balance; the write phase checks the stale snapshot and, if
sufficient, stores snapshot - cost into the shared balance unconditionally. -/
def stepReq (cost bal : Int) : Phase → Int × Phase
  | Phase.start => (bal, Phase.snap bal)
  | Phase.snap s =>
    if s < cost then (bal, Phase.finished false) else (s - cost, Phase.finished true)
  | Phase.finished c => (bal, Phase.finished c)

/-- Scheduler step: true advances request A, false advances request B. -/
def stepRace (cost : Int) (st : RaceState) (who : Bool) : RaceState :=
  if who then
    let r := stepReq cost st.balance st.reqA
    ⟨r.1, r.2, st.reqB⟩
  else
    let r := stepReq cost st.balance st.reqB
    ⟨r.1, st.reqA, r.2⟩

/-- Run the two concurrent requests under a given interleaving schedule. -/
def runRace (cost : Int) (st : RaceState) : List Bool → RaceState
  | [] => st
  | w :: ws => runRace cost (stepRace cost st w) ws

/-- C9: refuted on the code. The update documented in src/README.md is a read of
creditBalance followed by an unconditional findByIdAndUpdate write of the stale
snapshot minus the cost, not an atomic conditional decrement. Interleaving two
cost-1 requests on an initial balance of 1 as read, read, write, write lets both
pass the sufficiency check and both charge: two successful decrements from an
initial balance of 1 (exceeding it), with a final balance of 0, so one decrement
is lost — an atomic conditional decrement would have denied the second request. -/
theorem readThenWrite_lost_update :
    runRace 1 ⟨1, Phase.start, Phase.start⟩ [true, false, true, false] =
      ⟨0, Phase.finished true, Phase.finished true⟩ := by
  decide

end ImageCraft
